import Mathlib

/-!
Shallow embedding of `src/modules/watcher.py` from the TgMusicBot repository.

The module processes chat-membership updates (`chat_member`) and new-message
lifecycle events (`new_message`). External collaborators (Telegram transport,
database, admin cache, chat cache) are modelled by an `Env` record supplying
their answers, and every outgoing collaborator call is recorded in an effect
trace (`List Effect`). The module-global `user_status_cache` dictionary is
modelled as an explicit association list threaded through the functions,
keyed by the string key the source builds.
-/

namespace Watcher

/-- Python `s.startswith(p)`, on the character lists of the strings. -/
def pyStartsWith (s p : String) : Bool :=
  p.data.isPrefixOf s.data

/-- Python slicing `s[n:]`. -/
def pyDrop (s : String) (n : Nat) : String :=
  ⟨s.data.drop n⟩

/-- Accumulate decimal digits; `none` on a non-digit character. -/
def parseDigitsCore : List Char → Nat → Option Nat
  | [], acc => some acc
  | c :: cs, acc =>
      if c.isDigit then parseDigitsCore cs (acc * 10 + (c.toNat - 48)) else none

/-- Python `int(s)` on a decimal string: `none` models the `ValueError`
raised on an empty or malformed string. -/
def pyInt? (s : String) : Option Int :=
  match s.data with
  | [] => none
  | '-' :: [] => none
  | '-' :: c :: cs => (parseDigitsCore (c :: cs) 0).map (fun n => -(n : Int))
  | cs => (parseDigitsCore cs 0).map (fun n => (n : Int))

/-- TDLib status tag for "left". -/
def statusLeft : String := "chatMemberStatusLeft"

/-- TDLib status tag for "member". -/
def statusMember : String := "chatMemberStatusMember"

/-- TDLib status tag for "administrator". -/
def statusAdministrator : String := "chatMemberStatusAdministrator"

/-- TDLib status tag for "banned". -/
def statusBanned : String := "chatMemberStatusBanned"

/-- One outgoing call to an external collaborator, as recorded in the trace. -/
inductive Effect
  | sendTextMessage (chatId : Int) (text : String)
  | leaveChat (chatId : Int)
  | addChat (chatId : Int)
  | removeChat (chatId : Int)
  | getSupergroupFullInfo (chatId : Int)
  | getClient (chatId : Int)
  | loadAdminCache (chatId : Int) (force : Bool)
  | clearChat (chatId : Int)
  | log (msg : String)
  deriving DecidableEq, Repr

/-- The `user_status_cache` dictionary: string key `"chatId:botId"` to the
last stored status tag; first matching entry wins on lookup. -/
abbrev Cache := List (String × String)

/-- Python dict assignment `cache[k] = v` (last-write-wins). -/
def cacheSet (c : Cache) (k v : String) : Cache :=
  (k, v) :: c.filter (fun p => p.1 != k)

/-- Answers of the external collaborators consulted during processing:
`myId` is `client.options["my_id"]`; `getSupergroupFullInfo` returns the
member count or `none` for a `types.Error`; `getClient` returns `ub.me.id`
of the resolved userbot client or `none` for `types.Error`/`None`. -/
structure Env where
  myId : Int
  getSupergroupFullInfo : Int → Option Nat
  getClient : Int → Option Int

/-- A chat-member update as consumed by `chat_member`: the chat id, the
subject user id, and the old/new status tags (`status["@type"]`). -/
structure MemberUpdate where
  chatId : Int
  userId : Int
  oldStatus : String
  newStatus : String

/-- The notice text of `handle_non_supergroup`. -/
def nonSupergroupText (chatId : Int) : String :=
  s!"This chat ({chatId}) is not a supergroup yet.\n<b>⚠️ Please convert this chat to a supergroup and add me as admin.</b>\n\nIf you don't know how to convert, use this guide:\n🔗 https://te.legra.ph/How-to-Convert-a-Group-to-a-Supergroup-01-02\n\nIf you have any questions, join our support group:"

/-- `handle_non_supergroup`: notify the chat that it is not a supergroup,
then leave it. -/
def handle_non_supergroup (chatId : Int) : List Effect :=
  [Effect.sendTextMessage chatId (nonSupergroupText chatId),
   Effect.leaveChat chatId]

/-- `is_valid_supergroup`: `str(chat_id).startswith("-100")`. -/
def is_valid_supergroup (chatId : Int) : Bool :=
  pyStartsWith (toString chatId) "-100"

/-- The reassignment at the top of `handle_bot_join`:
`chat_id = int(str(chat_id)[4:]) if str(chat_id).startswith("-100") else chat_id`;
`none` models the `ValueError` from `int` on an empty remainder. -/
def bareChatId (chatId : Int) : Option Int :=
  if pyStartsWith (toString chatId) "-100" then pyInt? (pyDrop (toString chatId) 4)
  else some chatId

/-- The too-few-members notice text of `handle_bot_join`. -/
def tooFewMembersText (memberCount : Nat) : String :=
  s!"⚠️ This group has too few members ({memberCount}).\n\nTo prevent spam and ensure proper functionality, this bot only works in groups with at least 50 members.\nPlease grow your community and add me again later.\nIf you have any questions, join our support group:"

/-- `handle_bot_join`: log, strip the `-100` prefix from the chat id, fetch
supergroup info, and kick off the too-few-members flow when the count is
below 50. The `Bool` component is `true` when the `int` conversion raised. -/
def handle_bot_join (env : Env) (chatId : Int) : List Effect × Bool :=
  match bareChatId chatId with
  | none => ([Effect.log s!"Bot joined the chat {chatId}."], true)
  | some cid =>
    match env.getSupergroupFullInfo cid with
    | none =>
        ([Effect.log s!"Bot joined the chat {chatId}.",
          Effect.getSupergroupFullInfo cid,
          Effect.log s!"Failed to get supergroup info for {cid}"], false)
    | some memberCount =>
        if memberCount < 50 then
          ([Effect.log s!"Bot joined the chat {chatId}.",
            Effect.getSupergroupFullInfo cid,
            Effect.sendTextMessage cid (tooFewMembersText memberCount),
            Effect.leaveChat cid,
            Effect.removeChat cid], false)
        else
          ([Effect.log s!"Bot joined the chat {chatId}.",
            Effect.getSupergroupFullInfo cid], false)

/-- `_update_user_status_cache`: resolve the userbot client for the chat;
when the subject is that client's own id, store the status under the key
`f"{chat_id}:{ub.me.id}"`. -/
def update_user_status_cache (env : Env) (cache : Cache) (chatId userId : Int)
    (status : String) : List Effect × Cache :=
  match env.getClient chatId with
  | none => ([Effect.getClient chatId], cache)
  | some ubId =>
      if userId == ubId then
        ([Effect.getClient chatId], cacheSet cache s!"{chatId}:{ubId}" status)
      else
        ([Effect.getClient chatId], cache)

/-- `_handle_join`: run `handle_bot_join` when the subject is the bot, then
log the join. The `Bool` component propagates the raised exception. -/
def handle_join (env : Env) (chatId userId : Int) : List Effect × Bool :=
  if userId == env.myId then
    if (handle_bot_join env chatId).2 then
      ((handle_bot_join env chatId).1, true)
    else
      ((handle_bot_join env chatId).1
        ++ [Effect.log s!"User {userId} joined the chat {chatId}."], false)
  else
    ([Effect.log s!"User {userId} joined the chat {chatId}."], false)

/-- `_handle_leave_or_kick`. -/
def handle_leave_or_kick (env : Env) (cache : Cache) (chatId userId : Int) :
    List Effect × Cache :=
  (Effect.log s!"User {userId} left or was kicked from {chatId}."
     :: (update_user_status_cache env cache chatId userId statusLeft).1,
   (update_user_status_cache env cache chatId userId statusLeft).2)

/-- `_handle_ban`. -/
def handle_ban (env : Env) (cache : Cache) (chatId userId : Int) :
    List Effect × Cache :=
  (Effect.log s!"User {userId} was banned in {chatId}."
     :: (update_user_status_cache env cache chatId userId statusBanned).1,
   (update_user_status_cache env cache chatId userId statusBanned).2)

/-- `_handle_unban`. -/
def handle_unban (env : Env) (cache : Cache) (chatId userId : Int) :
    List Effect × Cache :=
  (Effect.log s!"User {userId} was unbanned in {chatId}."
     :: (update_user_status_cache env cache chatId userId statusLeft).1,
   (update_user_status_cache env cache chatId userId statusLeft).2)

/-- `_handle_promotion_demotion`: on any promotion or demotion, log (with a
dedicated message for a self promotion) and reload the admin cache with
`force=True`; otherwise do nothing. -/
def handle_promotion_demotion (env : Env) (chatId userId : Int)
    (oldStatus newStatus : String) : List Effect :=
  let is_promoted :=
    oldStatus != statusAdministrator && newStatus == statusAdministrator
  let is_demoted :=
    oldStatus == statusAdministrator && newStatus != statusAdministrator
  if !(is_promoted || is_demoted) then []
  else if userId == env.myId && is_promoted then
    [Effect.log s!"Bot promoted in {chatId}. Reloading admin cache.",
     Effect.loadAdminCache chatId true]
  else
    let action := if is_promoted then "promoted" else "demoted"
    [Effect.log s!"User {userId} was {action} in {chatId}.",
     Effect.loadAdminCache chatId true]

/-- `_handle_status_changes`: the routing of (old, new) status pairs.
Result: (effects, cache, exception raised). -/
def handle_status_changes (env : Env) (cache : Cache) (chatId userId : Int)
    (oldStatus newStatus : String) : List Effect × Cache × Bool :=
  if oldStatus == statusLeft
      && (newStatus == statusMember || newStatus == statusAdministrator) then
    ((handle_join env chatId userId).1, cache, (handle_join env chatId userId).2)
  else if (oldStatus == statusMember || oldStatus == statusAdministrator)
      && newStatus == statusLeft then
    ((handle_leave_or_kick env cache chatId userId).1,
     (handle_leave_or_kick env cache chatId userId).2, false)
  else if newStatus == statusBanned then
    ((handle_ban env cache chatId userId).1,
     (handle_ban env cache chatId userId).2, false)
  else if oldStatus == statusBanned && newStatus == statusLeft then
    ((handle_unban env cache chatId userId).1,
     (handle_unban env cache chatId userId).2, false)
  else
    (handle_promotion_demotion env chatId userId oldStatus newStatus, cache, false)

/-- `chat_member`: the `updateChatMember` entry point. Positive chat ids
return early; non-supergroups get the rejection flow; then the chat is
recorded, zero user ids are skipped, and the status change is routed. The
surrounding `try`/`except` turns a raised exception into an error log. -/
def chat_member (env : Env) (cache : Cache) (u : MemberUpdate) :
    List Effect × Cache :=
  if u.chatId > 0 then ([], cache)
  else if !(is_valid_supergroup u.chatId) then
    (handle_non_supergroup u.chatId, cache)
  else if u.userId == 0 then
    ([Effect.addChat u.chatId], cache)
  else if (handle_status_changes env cache u.chatId u.userId u.oldStatus u.newStatus).2.2 then
    (Effect.addChat u.chatId
       :: (handle_status_changes env cache u.chatId u.userId u.oldStatus u.newStatus).1
       ++ [Effect.log s!"Error processing chat member update in {u.chatId}"],
     (handle_status_changes env cache u.chatId u.userId u.oldStatus u.newStatus).2.1)
  else
    (Effect.addChat u.chatId
       :: (handle_status_changes env cache u.chatId u.userId u.oldStatus u.newStatus).1,
     (handle_status_changes env cache u.chatId u.userId u.oldStatus u.newStatus).2.1)

/-- The content of a new message, discriminated as in `new_message`. -/
inductive MessageContent
  | videoChatEnded
  | videoChatStarted
  | other (tag : String)
  deriving DecidableEq, Repr

/-- `new_message`: the `updateNewMessage` entry point; `none` models a
missing `update.message`. -/
def new_message (message : Option (Int × MessageContent)) : List Effect :=
  match message with
  | none => []
  | some (chatId, MessageContent.videoChatEnded) =>
      [Effect.log s!"Video chat ended in {chatId}",
       Effect.clearChat chatId,
       Effect.sendTextMessage chatId "Video chat ended!\nall queues cleared"]
  | some (chatId, MessageContent.videoChatStarted) =>
      [Effect.log s!"Video chat started in {chatId}",
       Effect.clearChat chatId,
       Effect.sendTextMessage chatId "Video chat started!\nuse /play song name to play a song"]
  | some (chatId, MessageContent.other _) =>
      [Effect.log s!"New message in {chatId}"]

/-- Recognizer for the forced admin-cache refresh call in a trace. -/
def Effect.isAdminCacheRefresh : Effect → Bool
  | Effect.loadAdminCache _ true => true
  | _ => false

/-- Concrete environment for witnesses: chats have 100 members, the userbot
client resolves to id 777, and the bot's own id is 777. -/
def envBig : Env :=
  { myId := 777, getSupergroupFullInfo := fun _ => some 100,
    getClient := fun _ => some 777 }

/-- Concrete environment for witnesses: chats have 49 members. -/
def envSmall : Env :=
  { myId := 777, getSupergroupFullInfo := fun _ => some 49,
    getClient := fun _ => some 777 }

/-- Concrete environment for witnesses: the transport lookup and the client
resolution both fail. -/
def envFail : Env :=
  { myId := 777, getSupergroupFullInfo := fun _ => none,
    getClient := fun _ => none }

lemma update_user_status_cache_fst (env : Env) (cache : Cache) (chatId userId : Int)
    (status : String) :
    (update_user_status_cache env cache chatId userId status).1
      = [Effect.getClient chatId] := by
  cases h : env.getClient chatId with
  | none => simp [update_user_status_cache, h]
  | some ubId =>
    simp only [update_user_status_cache, h]
    split <;> rfl

lemma update_user_status_cache_snd_self (env : Env) (cache : Cache) (chatId userId : Int)
    (status : String) (hget : env.getClient chatId = some userId) :
    (update_user_status_cache env cache chatId userId status).2
      = cacheSet cache s!"{chatId}:{userId}" status := by
  unfold update_user_status_cache
  rw [hget]
  simp

lemma lookup_cacheSet (cache : Cache) (k v : String) :
    List.lookup k (cacheSet cache k v) = some v := by
  simp [cacheSet, List.lookup]

lemma chat_member_routed (env : Env) (cache : Cache) (u : MemberUpdate)
    (h1 : ¬ u.chatId > 0) (h2 : is_valid_supergroup u.chatId = true) (h3 : u.userId ≠ 0)
    (hnoraise : (handle_status_changes env cache u.chatId u.userId u.oldStatus u.newStatus).2.2 = false) :
    chat_member env cache u
      = (Effect.addChat u.chatId
           :: (handle_status_changes env cache u.chatId u.userId u.oldStatus u.newStatus).1,
         (handle_status_changes env cache u.chatId u.userId u.oldStatus u.newStatus).2.1) := by
  unfold chat_member
  rw [if_neg h1]
  simp [h2, h3, hnoraise]

lemma handle_status_changes_ban (env : Env) (cache : Cache) (chatId userId : Int)
    (oldStatus : String) :
    handle_status_changes env cache chatId userId oldStatus statusBanned
      = ([Effect.log s!"User {userId} was banned in {chatId}.",
          Effect.getClient chatId],
         (update_user_status_cache env cache chatId userId statusBanned).2, false) := by
  unfold handle_status_changes
  simp [statusBanned, statusMember, statusAdministrator, statusLeft, handle_ban,
    update_user_status_cache_fst]

lemma handle_status_changes_leave (env : Env) (cache : Cache) (chatId userId : Int)
    (oldStatus : String)
    (hold : oldStatus = statusMember ∨ oldStatus = statusAdministrator) :
    handle_status_changes env cache chatId userId oldStatus statusLeft
      = ([Effect.log s!"User {userId} left or was kicked from {chatId}.",
          Effect.getClient chatId],
         (update_user_status_cache env cache chatId userId statusLeft).2, false) := by
  rcases hold with h | h <;> subst h <;>
    simp [handle_status_changes, statusLeft, statusMember, statusAdministrator,
      statusBanned, handle_leave_or_kick, update_user_status_cache_fst]

lemma handle_status_changes_join (env : Env) (cache : Cache) (chatId userId : Int)
    (newStatus : String)
    (hnew : newStatus = statusMember ∨ newStatus = statusAdministrator) :
    handle_status_changes env cache chatId userId statusLeft newStatus
      = ((handle_join env chatId userId).1, cache, (handle_join env chatId userId).2) := by
  rcases hnew with h | h <;> subst h <;>
    simp [handle_status_changes, statusLeft, statusMember, statusAdministrator,
      statusBanned]

lemma handle_bot_join_sufficient (env : Env) (chatId cid : Int) (n : Nat)
    (hbare : bareChatId chatId = some cid)
    (hcount : env.getSupergroupFullInfo cid = some n) (hge : 50 ≤ n) :
    handle_bot_join env chatId
      = ([Effect.log s!"Bot joined the chat {chatId}.",
          Effect.getSupergroupFullInfo cid], false) := by
  simp [handle_bot_join, hbare, hcount, Nat.not_lt.mpr hge]

lemma handle_bot_join_insufficient (env : Env) (chatId cid : Int) (n : Nat)
    (hbare : bareChatId chatId = some cid)
    (hcount : env.getSupergroupFullInfo cid = some n) (hlt : n < 50) :
    handle_bot_join env chatId
      = ([Effect.log s!"Bot joined the chat {chatId}.",
          Effect.getSupergroupFullInfo cid,
          Effect.sendTextMessage cid (tooFewMembersText n),
          Effect.leaveChat cid,
          Effect.removeChat cid], false) := by
  simp [handle_bot_join, hbare, hcount, hlt]

lemma handle_bot_join_lookup_failed (env : Env) (chatId cid : Int)
    (hbare : bareChatId chatId = some cid)
    (hcount : env.getSupergroupFullInfo cid = none) :
    handle_bot_join env chatId
      = ([Effect.log s!"Bot joined the chat {chatId}.",
          Effect.getSupergroupFullInfo cid,
          Effect.log s!"Failed to get supergroup info for {cid}"], false) := by
  simp [handle_bot_join, hbare, hcount]

lemma handle_join_self (env : Env) (chatId userId : Int)
    (hself : userId = env.myId) (hok : (handle_bot_join env chatId).2 = false) :
    handle_join env chatId userId
      = ((handle_bot_join env chatId).1
          ++ [Effect.log s!"User {userId} joined the chat {chatId}."], false) := by
  simp [handle_join, hself, hok]

lemma cacheSet_idem (cache : Cache) (k v : String) :
    cacheSet (cacheSet cache k v) k v = cacheSet cache k v := by
  simp [cacheSet, List.filter_filter]

lemma update_user_status_cache_snd_idem (env : Env) (cache : Cache)
    (chatId userId : Int) (status : String) :
    (update_user_status_cache env
        (update_user_status_cache env cache chatId userId status).2
        chatId userId status).2
      = (update_user_status_cache env cache chatId userId status).2 := by
  cases h : env.getClient chatId with
  | none => simp [update_user_status_cache, h]
  | some ubId =>
    by_cases hu : (userId == ubId) = true
    · simp [update_user_status_cache, h, hu, cacheSet_idem]
    · simp [update_user_status_cache, h, hu]

lemma handle_status_changes_snd_idem (env : Env) (cache : Cache) (chatId userId : Int)
    (oldStatus newStatus : String) :
    (handle_status_changes env
        (handle_status_changes env cache chatId userId oldStatus newStatus).2.1
        chatId userId oldStatus newStatus).2.1
      = (handle_status_changes env cache chatId userId oldStatus newStatus).2.1 := by
  by_cases h1 : (oldStatus == statusLeft
      && (newStatus == statusMember || newStatus == statusAdministrator)) = true
  · simp [handle_status_changes, h1]
  · by_cases h2 : ((oldStatus == statusMember || oldStatus == statusAdministrator)
        && newStatus == statusLeft) = true
    · simp [handle_status_changes, h1, h2, handle_leave_or_kick,
        update_user_status_cache_snd_idem]
    · by_cases h3 : (newStatus == statusBanned) = true
      · simp [handle_status_changes, h1, h2, h3, handle_ban,
          update_user_status_cache_snd_idem]
      · by_cases h4 : (oldStatus == statusBanned && newStatus == statusLeft) = true
        · simp [handle_status_changes, h1, h2, h3, h4, handle_unban,
            update_user_status_cache_snd_idem]
        · simp [handle_status_changes, h1, h2, h3, h4]

lemma handle_status_changes_demote (env : Env) (cache : Cache) (chatId userId : Int) :
    ∃ msg, handle_status_changes env cache chatId userId statusAdministrator statusMember
      = ([Effect.log msg, Effect.loadAdminCache chatId true], cache, false) := by
  exact ⟨s!"User {userId} was " ++ "demoted" ++ s!" in {chatId}.", by
    simp [handle_status_changes, handle_promotion_demotion,
      statusLeft, statusMember, statusAdministrator, statusBanned, String.append_assoc]
    rfl⟩

lemma handle_promotion_demotion_promote_count (env : Env) (chatId userId : Int) :
    (handle_promotion_demotion env chatId userId statusMember statusAdministrator).countP
        Effect.isAdminCacheRefresh = 1 := by
  by_cases h : (userId == env.myId) = true <;>
    simp [handle_promotion_demotion, statusMember, statusAdministrator, h,
      Effect.isAdminCacheRefresh]

lemma handle_status_changes_promote (env : Env) (cache : Cache) (chatId userId : Int) :
    handle_status_changes env cache chatId userId statusMember statusAdministrator
      = (handle_promotion_demotion env chatId userId statusMember statusAdministrator,
         cache, false) := by
  simp [handle_status_changes, statusLeft, statusMember, statusAdministrator, statusBanned]

lemma chat_member_routed_mk (env : Env) (cache : Cache) (chatId userId : Int)
    (oldS newS : String)
    (h1 : ¬ chatId > 0) (h2 : is_valid_supergroup chatId = true) (h3 : userId ≠ 0)
    (hnoraise : (handle_status_changes env cache chatId userId oldS newS).2.2 = false) :
    chat_member env cache ⟨chatId, userId, oldS, newS⟩
      = (Effect.addChat chatId
           :: (handle_status_changes env cache chatId userId oldS newS).1,
         (handle_status_changes env cache chatId userId oldS newS).2.1) :=
  chat_member_routed env cache ⟨chatId, userId, oldS, newS⟩ h1 h2 h3 hnoraise

/-- Claim C1, counterexample: the chat id `5` fails the Eligibility Filter
(`is_valid_supergroup 5 = false`), yet processing a MemberUpdate for it
produces no effect at all — in particular not the Reject flow, which is
nonempty — and a lifecycle message (video chat started) for the same chat
produces the video-chat flow, not the Reject flow. -/
theorem c1_counterexample :
    is_valid_supergroup 5 = false
    ∧ (chat_member envBig [] ⟨5, 7, statusLeft, statusMember⟩).1 = []
    ∧ handle_non_supergroup 5 ≠ []
    ∧ new_message (some (5, MessageContent.videoChatStarted)) ≠ handle_non_supergroup 5 := by
  exact ⟨by decide, by decide, by decide, by decide⟩

/-- Claim C1, amended: for a MemberUpdate whose chat fails the supergroup
convention, a positive chat id is dropped silently (no effects, no cache
mutation), a non-positive chat id produces exactly the Reject flow (notice
then leave) with no cache mutation and no chat-record write; lifecycle
messages are not subject to the Eligibility Filter and produce their
video-chat flow for any chat. -/
theorem c1_amended_filter (env : Env) (cache : Cache) (u : MemberUpdate)
    (hinvalid : is_valid_supergroup u.chatId = false) :
    (u.chatId > 0 → chat_member env cache u = ([], cache))
    ∧ (¬ u.chatId > 0 → chat_member env cache u = (handle_non_supergroup u.chatId, cache))
    ∧ new_message (some (u.chatId, MessageContent.videoChatStarted))
        = [Effect.log s!"Video chat started in {u.chatId}",
           Effect.clearChat u.chatId,
           Effect.sendTextMessage u.chatId
             "Video chat started!\nuse /play song name to play a song"] := by
  refine ⟨fun h => by simp [chat_member, h], fun h => ?_, rfl⟩
  unfold chat_member
  rw [if_neg h]
  simp [hinvalid]

/-- Witness for C1 (amended) at the chats `5` and `-123`. -/
theorem c1_amended_filter_witness :
    is_valid_supergroup (5 : Int) = false
    ∧ chat_member envBig [] ⟨5, 7, statusLeft, statusMember⟩ = ([], [])
    ∧ chat_member envBig [] ⟨-123, 7, statusLeft, statusMember⟩
        = (handle_non_supergroup (-123), []) := by
  refine ⟨by decide, ?_, ?_⟩
  · exact (c1_amended_filter envBig [] ⟨5, 7, statusLeft, statusMember⟩ (by decide)).1
      (by decide)
  · exact (c1_amended_filter envBig [] ⟨-123, 7, statusLeft, statusMember⟩ (by decide)).2.1
      (by decide)

/-- Claim C2, counterexample: for an eligible chat and `subject_user_id = 0`
the processing trace is `[addChat]` — a persistence write is made before the
zero-id check, contradicting "no external collaborator call is made (… no
persistence write …)". -/
theorem c2_counterexample :
    (chat_member envBig [] ⟨-1001234, 0, statusLeft, statusMember⟩).1
      = [Effect.addChat (-1001234)] := by
  decide

/-- Claim C2, amended: for an eligible chat, `subject_user_id = 0`
short-circuits before any transition rule, with no message send, no leave,
no admin-cache call and no Status Cache mutation — but after the chat-record
write (`db.add_chat`), which is the only collaborator call in the trace. -/
theorem c2_zero_id_after_record (env : Env) (cache : Cache) (u : MemberUpdate)
    (h1 : ¬ u.chatId > 0) (h2 : is_valid_supergroup u.chatId = true)
    (h0 : u.userId = 0) :
    chat_member env cache u = ([Effect.addChat u.chatId], cache) := by
  unfold chat_member
  rw [if_neg h1]
  simp [h2, h0]

/-- Witness for C2 (amended) at chat `-1001234` and a (Member, Banned) pair. -/
theorem c2_zero_id_after_record_witness :
    chat_member envBig [] ⟨-1001234, 0, statusMember, statusBanned⟩
      = ([Effect.addChat (-1001234)], []) :=
  c2_zero_id_after_record envBig [] ⟨-1001234, 0, statusMember, statusBanned⟩
    (by decide) (by decide) (by decide)

/-- Claim C3, counterexample: a self demotion (subject 777 = `myId`,
Administrator→Member) and a non-self promotion (subject 555,
Member→Administrator) each put a forced admin-cache reload in the trace,
contradicting "for a non-self promotion or for any demotion the effect is
log-only with no admin-cache call". -/
theorem c3_counterexample :
    (chat_member envBig [] ⟨-1001234, 777, statusAdministrator, statusMember⟩).1
      = [Effect.addChat (-1001234),
         Effect.log "User 777 was demoted in -1001234.",
         Effect.loadAdminCache (-1001234) true]
    ∧ (chat_member envBig [] ⟨-1001234, 555, statusMember, statusAdministrator⟩).1
      = [Effect.addChat (-1001234),
         Effect.log "User 555 was promoted in -1001234.",
         Effect.loadAdminCache (-1001234) true] := by
  exact ⟨by decide, by decide⟩

/-- Claim C3, amended: the forced admin-cache refresh is invoked exactly once
per promotion event and exactly once per demotion event, for any subject
(only the log line distinguishes a self promotion); so a self demotion
(Administrator→Member) followed by a self promotion (Member→Administrator)
triggers two refreshes, one per event. -/
theorem c3_refresh_per_promo_demo (env : Env) (cache cache2 : Cache) (chatId userId : Int)
    (h1 : ¬ chatId > 0) (h2 : is_valid_supergroup chatId = true) (h3 : userId ≠ 0) :
    (chat_member env cache ⟨chatId, userId, statusAdministrator, statusMember⟩).1.countP
        Effect.isAdminCacheRefresh = 1
    ∧ (chat_member env cache2 ⟨chatId, userId, statusMember, statusAdministrator⟩).1.countP
        Effect.isAdminCacheRefresh = 1 := by
  constructor
  · obtain ⟨msg, hd⟩ := handle_status_changes_demote env cache chatId userId
    have hcm := chat_member_routed_mk env cache chatId userId statusAdministrator
      statusMember h1 h2 h3 (by rw [hd])
    rw [hcm, hd]
    simp [Effect.isAdminCacheRefresh]
  · have hp := handle_status_changes_promote env cache2 chatId userId
    have hcm := chat_member_routed_mk env cache2 chatId userId statusMember
      statusAdministrator h1 h2 h3 (by rw [hp])
    rw [hcm, hp]
    simp only [List.countP_cons]
    simp [Effect.isAdminCacheRefresh, handle_promotion_demotion_promote_count]

/-- Witness for C3 (amended): the self demotion then self promotion sequence
at chat `-1001234`, subject 777 = `myId`, each with exactly one refresh. -/
theorem c3_refresh_per_promo_demo_witness :
    (chat_member envBig [] ⟨-1001234, 777, statusAdministrator, statusMember⟩).1.countP
        Effect.isAdminCacheRefresh = 1
    ∧ (chat_member envBig [] ⟨-1001234, 777, statusMember, statusAdministrator⟩).1.countP
        Effect.isAdminCacheRefresh = 1 :=
  c3_refresh_per_promo_demo envBig [] [] (-1001234) 777 (by decide) (by decide) (by decide)

/-- Claim C4: for every eligible chat, nonzero subject and any old status in
{Left, Member, Administrator, Banned}, a transition to `new = Banned` is
classified as Banned (the Joined and LeftOrKicked rules cannot match a
Banned new-status, so the ban rule is effectively terminal regardless of the
old status), and when the resolved bot identity equals the subject the
Status Cache entry for (chat, bot) is set to `Banned`. -/
theorem c4_ban_is_terminal (env : Env) (cache : Cache) (u : MemberUpdate)
    (h1 : ¬ u.chatId > 0) (h2 : is_valid_supergroup u.chatId = true) (h3 : u.userId ≠ 0)
    (_hold : u.oldStatus = statusLeft ∨ u.oldStatus = statusMember
        ∨ u.oldStatus = statusAdministrator ∨ u.oldStatus = statusBanned)
    (hnew : u.newStatus = statusBanned) :
    (chat_member env cache u).1
      = [Effect.addChat u.chatId,
         Effect.log s!"User {u.userId} was banned in {u.chatId}.",
         Effect.getClient u.chatId]
    ∧ (env.getClient u.chatId = some u.userId →
        List.lookup s!"{u.chatId}:{u.userId}" (chat_member env cache u).2
          = some statusBanned) := by
  have hsc : handle_status_changes env cache u.chatId u.userId u.oldStatus u.newStatus
      = ([Effect.log s!"User {u.userId} was banned in {u.chatId}.",
          Effect.getClient u.chatId],
         (update_user_status_cache env cache u.chatId u.userId statusBanned).2, false) := by
    rw [hnew]
    exact handle_status_changes_ban env cache u.chatId u.userId u.oldStatus
  have hcm := chat_member_routed env cache u h1 h2 h3 (by rw [hsc])
  rw [hcm, hsc]
  refine ⟨rfl, fun hget => ?_⟩
  show List.lookup _ (update_user_status_cache env cache u.chatId u.userId statusBanned).2 = _
  rw [update_user_status_cache_snd_self env cache u.chatId u.userId statusBanned hget]
  exact lookup_cacheSet cache _ statusBanned

/-- Witness for C4: Member→Banned for the bot (subject 777, resolved client
id 777) in chat `-1001234`; the cache entry becomes `Banned`. -/
theorem c4_ban_is_terminal_witness :
    (chat_member envBig [] ⟨-1001234, 777, statusMember, statusBanned⟩).1
      = [Effect.addChat (-1001234),
         Effect.log "User 777 was banned in -1001234.",
         Effect.getClient (-1001234)]
    ∧ List.lookup "-1001234:777"
        (chat_member envBig [] ⟨-1001234, 777, statusMember, statusBanned⟩).2
      = some statusBanned := by
  have h := c4_ban_is_terminal envBig [] ⟨-1001234, 777, statusMember, statusBanned⟩
    (by decide) (by decide) (by decide) (Or.inr (Or.inl rfl)) rfl
  exact ⟨h.1, h.2 rfl⟩

/-- Claim C5: for every eligible chat, a transition with old status in
{Member, Administrator} and `new = Left` whose subject is the resolved bot
identity is classified LeftOrKicked and deterministically sets the Status
Cache entry for (chat, bot) to `Left`. -/
theorem c5_leave_sets_cache (env : Env) (cache : Cache) (u : MemberUpdate)
    (h1 : ¬ u.chatId > 0) (h2 : is_valid_supergroup u.chatId = true) (h3 : u.userId ≠ 0)
    (hold : u.oldStatus = statusMember ∨ u.oldStatus = statusAdministrator)
    (hnew : u.newStatus = statusLeft)
    (hget : env.getClient u.chatId = some u.userId) :
    (chat_member env cache u).1
      = [Effect.addChat u.chatId,
         Effect.log s!"User {u.userId} left or was kicked from {u.chatId}.",
         Effect.getClient u.chatId]
    ∧ List.lookup s!"{u.chatId}:{u.userId}" (chat_member env cache u).2
        = some statusLeft := by
  have hsc : handle_status_changes env cache u.chatId u.userId u.oldStatus u.newStatus
      = ([Effect.log s!"User {u.userId} left or was kicked from {u.chatId}.",
          Effect.getClient u.chatId],
         (update_user_status_cache env cache u.chatId u.userId statusLeft).2, false) := by
    rw [hnew]
    exact handle_status_changes_leave env cache u.chatId u.userId u.oldStatus hold
  have hcm := chat_member_routed env cache u h1 h2 h3 (by rw [hsc])
  rw [hcm, hsc]
  refine ⟨rfl, ?_⟩
  show List.lookup _ (update_user_status_cache env cache u.chatId u.userId statusLeft).2 = _
  rw [update_user_status_cache_snd_self env cache u.chatId u.userId statusLeft hget]
  exact lookup_cacheSet cache _ statusLeft

/-- Witness for C5: Member→Left for the bot in chat `-1001234`; the cache
entry becomes `Left`. -/
theorem c5_leave_sets_cache_witness :
    (chat_member envBig [] ⟨-1001234, 777, statusMember, statusLeft⟩).1
      = [Effect.addChat (-1001234),
         Effect.log "User 777 left or was kicked from -1001234.",
         Effect.getClient (-1001234)]
    ∧ List.lookup "-1001234:777"
        (chat_member envBig [] ⟨-1001234, 777, statusMember, statusLeft⟩).2
      = some statusLeft := by
  have h := c5_leave_sets_cache envBig [] ⟨-1001234, 777, statusMember, statusLeft⟩
    (by decide) (by decide) (by decide) (Or.inl rfl) rfl rfl
  exact ⟨h.1, h.2⟩

/-- Claim C6: a bot self-join (Left→Member/Administrator, subject = `myId`)
into an eligible chat whose metadata lookup succeeds with at least 50
members is classified Joined, with no Kick flow (no notice, no leave, no
record removal — the trace holds only the record-ensure, logs and the
metadata lookup) and no Status Cache write. -/
theorem c6_join_sufficient (env : Env) (cache : Cache) (u : MemberUpdate) (cid : Int) (n : Nat)
    (h1 : ¬ u.chatId > 0) (h2 : is_valid_supergroup u.chatId = true)
    (hself : u.userId = env.myId) (h3 : u.userId ≠ 0)
    (hold : u.oldStatus = statusLeft)
    (hnew : u.newStatus = statusMember ∨ u.newStatus = statusAdministrator)
    (hbare : bareChatId u.chatId = some cid)
    (hcount : env.getSupergroupFullInfo cid = some n) (hge : 50 ≤ n) :
    (chat_member env cache u).1
      = [Effect.addChat u.chatId,
         Effect.log s!"Bot joined the chat {u.chatId}.",
         Effect.getSupergroupFullInfo cid,
         Effect.log s!"User {u.userId} joined the chat {u.chatId}."]
    ∧ (chat_member env cache u).2 = cache := by
  have hbj := handle_bot_join_sufficient env u.chatId cid n hbare hcount hge
  have hj := handle_join_self env u.chatId u.userId hself (by rw [hbj])
  have hsc : handle_status_changes env cache u.chatId u.userId u.oldStatus u.newStatus
      = ((handle_join env u.chatId u.userId).1, cache,
         (handle_join env u.chatId u.userId).2) := by
    rw [hold]
    exact handle_status_changes_join env cache u.chatId u.userId u.newStatus hnew
  have hcm := chat_member_routed env cache u h1 h2 h3 (by rw [hsc, hj])
  rw [hcm, hsc, hj, hbj]
  exact ⟨rfl, rfl⟩

/-- Witness for C6: bot self-join Left→Member into chat `-1001234` with 100
members. -/
theorem c6_join_sufficient_witness :
    (chat_member envBig [] ⟨-1001234, 777, statusLeft, statusMember⟩).1
      = [Effect.addChat (-1001234),
         Effect.log "Bot joined the chat -1001234.",
         Effect.getSupergroupFullInfo 1234,
         Effect.log "User 777 joined the chat -1001234."]
    ∧ (chat_member envBig [] ⟨-1001234, 777, statusLeft, statusMember⟩).2 = [] := by
  have h := c6_join_sufficient envBig [] ⟨-1001234, 777, statusLeft, statusMember⟩ 1234 100
    (by decide) (by decide) rfl (by decide) rfl (Or.inl rfl) (by decide) rfl (by decide)
  exact ⟨h.1, h.2⟩

/-- Claim C7: a bot self-join into an eligible chat whose metadata lookup
succeeds with fewer than 50 members runs the full Kick-for-too-small flow:
the minimum-member notice is sent, the chat is left, and the chat record is
removed (all keyed by the reassigned chat id); the threshold in the source
is the literal 50. No Status Cache write occurs. -/
theorem c7_kick_too_small (env : Env) (cache : Cache) (u : MemberUpdate) (cid : Int) (n : Nat)
    (h1 : ¬ u.chatId > 0) (h2 : is_valid_supergroup u.chatId = true)
    (hself : u.userId = env.myId) (h3 : u.userId ≠ 0)
    (hold : u.oldStatus = statusLeft)
    (hnew : u.newStatus = statusMember ∨ u.newStatus = statusAdministrator)
    (hbare : bareChatId u.chatId = some cid)
    (hcount : env.getSupergroupFullInfo cid = some n) (hlt : n < 50) :
    (chat_member env cache u).1
      = [Effect.addChat u.chatId,
         Effect.log s!"Bot joined the chat {u.chatId}.",
         Effect.getSupergroupFullInfo cid,
         Effect.sendTextMessage cid (tooFewMembersText n),
         Effect.leaveChat cid,
         Effect.removeChat cid,
         Effect.log s!"User {u.userId} joined the chat {u.chatId}."]
    ∧ (chat_member env cache u).2 = cache := by
  have hbj := handle_bot_join_insufficient env u.chatId cid n hbare hcount hlt
  have hj := handle_join_self env u.chatId u.userId hself (by rw [hbj])
  have hsc : handle_status_changes env cache u.chatId u.userId u.oldStatus u.newStatus
      = ((handle_join env u.chatId u.userId).1, cache,
         (handle_join env u.chatId u.userId).2) := by
    rw [hold]
    exact handle_status_changes_join env cache u.chatId u.userId u.newStatus hnew
  have hcm := chat_member_routed env cache u h1 h2 h3 (by rw [hsc, hj])
  rw [hcm, hsc, hj, hbj]
  exact ⟨rfl, rfl⟩

/-- Witness for C7: bot self-join Left→Member into chat `-1001234` with 49
members (one below the threshold). -/
theorem c7_kick_too_small_witness :
    (chat_member envSmall [] ⟨-1001234, 777, statusLeft, statusMember⟩).1
      = [Effect.addChat (-1001234),
         Effect.log "Bot joined the chat -1001234.",
         Effect.getSupergroupFullInfo 1234,
         Effect.sendTextMessage 1234 (tooFewMembersText 49),
         Effect.leaveChat 1234,
         Effect.removeChat 1234,
         Effect.log "User 777 joined the chat -1001234."]
    ∧ (chat_member envSmall [] ⟨-1001234, 777, statusLeft, statusMember⟩).2 = [] := by
  have h := c7_kick_too_small envSmall [] ⟨-1001234, 777, statusLeft, statusMember⟩ 1234 49
    (by decide) (by decide) rfl (by decide) rfl (Or.inl rfl) (by decide) rfl (by decide)
  exact ⟨h.1, h.2⟩

/-- Claim C8: if the transport metadata lookup during the bot-join
eligibility check fails, the check logs and stops — the trace holds only the
record-ensure, the lookup and logs (no notice, no leave, no record removal),
the Status Cache is unchanged, and no exception escapes (no error log is
appended by the surrounding handler). -/
theorem c8_lookup_failure_contained (env : Env) (cache : Cache) (u : MemberUpdate) (cid : Int)
    (h1 : ¬ u.chatId > 0) (h2 : is_valid_supergroup u.chatId = true)
    (hself : u.userId = env.myId) (h3 : u.userId ≠ 0)
    (hold : u.oldStatus = statusLeft)
    (hnew : u.newStatus = statusMember ∨ u.newStatus = statusAdministrator)
    (hbare : bareChatId u.chatId = some cid)
    (hcount : env.getSupergroupFullInfo cid = none) :
    (chat_member env cache u).1
      = [Effect.addChat u.chatId,
         Effect.log s!"Bot joined the chat {u.chatId}.",
         Effect.getSupergroupFullInfo cid,
         Effect.log s!"Failed to get supergroup info for {cid}",
         Effect.log s!"User {u.userId} joined the chat {u.chatId}."]
    ∧ (chat_member env cache u).2 = cache := by
  have hbj := handle_bot_join_lookup_failed env u.chatId cid hbare hcount
  have hj := handle_join_self env u.chatId u.userId hself (by rw [hbj])
  have hsc : handle_status_changes env cache u.chatId u.userId u.oldStatus u.newStatus
      = ((handle_join env u.chatId u.userId).1, cache,
         (handle_join env u.chatId u.userId).2) := by
    rw [hold]
    exact handle_status_changes_join env cache u.chatId u.userId u.newStatus hnew
  have hcm := chat_member_routed env cache u h1 h2 h3 (by rw [hsc, hj])
  rw [hcm, hsc, hj, hbj]
  exact ⟨rfl, rfl⟩

/-- Witness for C8: bot self-join Left→Administrator into chat `-1001234`
with a failing metadata lookup. -/
theorem c8_lookup_failure_contained_witness :
    (chat_member envFail [] ⟨-1001234, 777, statusLeft, statusAdministrator⟩).1
      = [Effect.addChat (-1001234),
         Effect.log "Bot joined the chat -1001234.",
         Effect.getSupergroupFullInfo 1234,
         Effect.log "Failed to get supergroup info for 1234",
         Effect.log "User 777 joined the chat -1001234."]
    ∧ (chat_member envFail [] ⟨-1001234, 777, statusLeft, statusAdministrator⟩).2 = [] := by
  have h := c8_lookup_failure_contained envFail [] ⟨-1001234, 777, statusLeft, statusAdministrator⟩
    1234 (by decide) (by decide) rfl (by decide) rfl (Or.inr rfl) (by decide) rfl
  exact ⟨h.1, h.2⟩

/-- Claim C9: replaying the identical MemberUpdate (with no intervening
updates) leaves the Status Cache in the same final state as processing it
once — processing is idempotent in the cache component, for every
environment, cache and update. -/
theorem c9_replay_idempotent (env : Env) (cache : Cache) (u : MemberUpdate) :
    (chat_member env (chat_member env cache u).2 u).2 = (chat_member env cache u).2 := by
  by_cases hpos : u.chatId > 0
  · simp [chat_member, hpos]
  · by_cases hval : (!(is_valid_supergroup u.chatId)) = true
    · simp [chat_member, hpos, hval]
    · by_cases hzero : (u.userId == 0) = true
      · simp [chat_member, hpos, hval, hzero]
      · have hsnd : ∀ ca : Cache, (chat_member env ca u).2
            = (handle_status_changes env ca u.chatId u.userId u.oldStatus u.newStatus).2.1 := by
          intro ca
          unfold chat_member
          rw [if_neg hpos, if_neg hval, if_neg hzero]
          split <;> rfl
        simp only [hsnd]
        exact handle_status_changes_snd_idem env cache u.chatId u.userId u.oldStatus u.newStatus

/-- Claim C10: in the bot self-join flow every collaborator call made by
`handle_bot_join` (metadata lookup, notice, leave, record removal) receives
the reassigned chat id `cid` obtained by dropping the first four characters
of the decimal string of the original id, while the record-ensure upstream
used the original (negative) id — so for an insufficient-size kick the
record removed is keyed differently from the record ensured. -/
theorem c10_kick_uses_stripped_id (env : Env) (cache : Cache) (u : MemberUpdate)
    (cid : Int) (n : Nat)
    (h1 : ¬ u.chatId > 0) (h2 : is_valid_supergroup u.chatId = true)
    (hneg : u.chatId < 0) (hcid : 0 ≤ cid)
    (hself : u.userId = env.myId) (h3 : u.userId ≠ 0)
    (hold : u.oldStatus = statusLeft)
    (hnew : u.newStatus = statusMember ∨ u.newStatus = statusAdministrator)
    (hbare : bareChatId u.chatId = some cid)
    (hcount : env.getSupergroupFullInfo cid = some n) (hlt : n < 50) :
    (chat_member env cache u).1
      = [Effect.addChat u.chatId,
         Effect.log s!"Bot joined the chat {u.chatId}.",
         Effect.getSupergroupFullInfo cid,
         Effect.sendTextMessage cid (tooFewMembersText n),
         Effect.leaveChat cid,
         Effect.removeChat cid,
         Effect.log s!"User {u.userId} joined the chat {u.chatId}."]
    ∧ cid ≠ u.chatId := by
  have hbj := handle_bot_join_insufficient env u.chatId cid n hbare hcount hlt
  have hj := handle_join_self env u.chatId u.userId hself (by rw [hbj])
  have hsc : handle_status_changes env cache u.chatId u.userId u.oldStatus u.newStatus
      = ((handle_join env u.chatId u.userId).1, cache,
         (handle_join env u.chatId u.userId).2) := by
    rw [hold]
    exact handle_status_changes_join env cache u.chatId u.userId u.newStatus hnew
  have hcm := chat_member_routed env cache u h1 h2 h3 (by rw [hsc, hj])
  rw [hcm, hsc, hj, hbj]
  exact ⟨rfl, by omega⟩

/-- Witness for C10: the kick in chat `-1001234` addresses the stripped id
`1234`, distinct from the original `-1001234` used for the record-ensure. -/
theorem c10_kick_uses_stripped_id_witness :
    (chat_member envSmall [] ⟨-1001234, 777, statusLeft, statusAdministrator⟩).1
      = [Effect.addChat (-1001234),
         Effect.log "Bot joined the chat -1001234.",
         Effect.getSupergroupFullInfo 1234,
         Effect.sendTextMessage 1234 (tooFewMembersText 49),
         Effect.leaveChat 1234,
         Effect.removeChat 1234,
         Effect.log "User 777 joined the chat -1001234."]
    ∧ (1234 : Int) ≠ -1001234 := by
  have h := c10_kick_uses_stripped_id envSmall [] ⟨-1001234, 777, statusLeft, statusAdministrator⟩
    1234 49 (by decide) (by decide) (by decide) (by decide) rfl (by decide) rfl (Or.inr rfl)
    (by decide) rfl (by decide)
  exact ⟨h.1, h.2⟩

end Watcher
